import Mathlib

/-!
# Kensho travel-planner: verification of the client-side core

Shallow embedding of the state/persistence/reconciliation core of the
Kensho travel-planning UI, together with proofs of the specified
properties.  Pure helper functions are translated directly; the React
state updates are modelled as explicit state-passing functions; the
IndexedDB-backed store (`kenshoDb`, whose module is not part of the
embedded sources) is modelled from the specification's Local Store
contract.
-/

namespace Kensho

/-- The four UI segments a recommendation can be classified into. -/
inductive Segment where
  | dine
  | listen
  | see
  | explore
deriving DecidableEq, Repr

/-- A tag attached to an external entity: `{ name, type }`. -/
structure Tag where
  name : String
  type : String
deriving DecidableEq, Repr

/-- Whether `sub` is a prefix of `s` (on character lists). -/
def strStartsAux : List Char → List Char → Bool
  | [], _ => true
  | _ :: _, [] => false
  | a :: as, b :: bs => a == b && strStartsAux as bs

/-- Whether `sub` occurs as a contiguous substring of `s` (on character lists). -/
def strIncludesAux : List Char → List Char → Bool
  | s, sub =>
    if strStartsAux sub s then true
    else
      match s with
      | [] => false
      | _ :: rest => strIncludesAux rest sub

/-- JavaScript `s.includes(sub)`: `sub` occurs as a contiguous substring
of `s`. -/
def strIncludes (s sub : String) : Bool :=
  strIncludesAux s.data sub.data

/-- JavaScript `s.toLowerCase()`, character by character. -/
def strToLower (s : String) : String :=
  ⟨s.data.map Char.toLower⟩

/-- The dine-keyword test of `mapTagsToSegment`, applied to one
lower-cased tag name. -/
def hasDineKeyword (t : String) : Bool :=
  strIncludes t "restaurant" || strIncludes t "hotel" || strIncludes t "bar" ||
    strIncludes t "cafe" || strIncludes t "dining" || strIncludes t "food"

/-- The listen-keyword test of `mapTagsToSegment`. -/
def hasListenKeyword (t : String) : Bool :=
  strIncludes t "music" || strIncludes t "concert" || strIncludes t "record" ||
    strIncludes t "jazz"

/-- The see-keyword test of `mapTagsToSegment`. -/
def hasSeeKeyword (t : String) : Bool :=
  strIncludes t "museum" || strIncludes t "art" || strIncludes t "gallery" ||
    strIncludes t "theatre" || strIncludes t "view" || strIncludes t "landmark"

/-- Translation of `mapTagsToSegment`: maps API tags to one of the four UI segments.
Lower-cases every tag name, then matches in priority order: dine
keywords first, then listen keywords, then see keywords; anything
unmatched is `explore`. -/
def mapTagsToSegment (tags : List Tag) : Segment :=
  let tagNames := tags.map (fun t => strToLower t.name)
  if tagNames.any hasDineKeyword then .dine
  else if tagNames.any hasListenKeyword then .listen
  else if tagNames.any hasSeeKeyword then .see
  else .explore


/-! ## Radar-coordinate generation -/

/-- The normalized popularity rank assigned by
`handleGenerateRecommendations` to the entity at `index` in the sorted
list of length `n`: `index / (n − 1)` when `n > 1`, else `0`. -/
def popularityRank (n index : ℕ) : ℚ :=
  if n > 1 then (index : ℚ) / ((n : ℚ) - 1) else 0

/-- The jitter-free radar radius of `getRadarCoordinates`:
`25 + (1 − rank) × 70`. -/
def radarRadius (rank : ℚ) : ℚ :=
  25 + (1 - rank) * 70

/-- The `segmentAngles` table of `getRadarCoordinates`. -/
def segmentAngles : Segment → ℚ
  | .dine => 0
  | .listen => 90
  | .see => 180
  | .explore => 270

/-- Translation of `getRadarCoordinates`: X,Y coordinates for the radar chart from the
segment and the popularity rank.  `u` stands for the `Math.random()`
draw, so the angle jitter is `u * (35 * 2) - 35`. -/
noncomputable def getRadarCoordinates (segment : Segment) (popRank : ℚ) (u : ℝ) :
    ℝ × ℝ :=
  let baseAngle : ℝ := ((segmentAngles segment : ℚ) : ℝ)
  let angleJitter : ℝ := 35
  let angle : ℝ := baseAngle + (u * (angleJitter * 2) - angleJitter)
  let angleRad : ℝ := angle * Real.pi / 180
  let radius : ℝ := ((radarRadius popRank : ℚ) : ℝ)
  (100 + Real.cos angleRad * radius, 100 + Real.sin angleRad * radius)

/-- Euclidean distance of a display point from the radar center
`(100,100)`. -/
noncomputable def distToCenter (x y : ℝ) : ℝ :=
  Real.sqrt ((x - 100) ^ 2 + (y - 100) ^ 2)

/-! ## Raw entities and the Recommendation Mapper -/

/-- A raw external place entity, with the fields
`handleGenerateRecommendations` reads: `entity_id`, `name`,
`popularity`, `tags`, `properties?.images?.[0]?.url`,
`properties?.description`, `properties?.website`, `location?.lat`,
`location?.lon`. -/
structure Entity where
  entity_id : String
  name : String
  popularity : ℚ
  tags : List Tag
  imageUrl : Option String
  description : Option String
  website : Option String
  lat : Option ℚ
  lon : Option ℚ
deriving DecidableEq, Repr

/-- The in-memory `Recommendation` view model produced by the mapper. -/
structure Recommendation where
  id : String
  name : String
  category : String
  image : String
  insight : String
  segment : Segment
  website : Option String
  x : Option ℝ
  y : Option ℝ
  latitude : Option ℚ
  longitude : Option ℚ

/-- An itinerary entry: a recommendation plus day, notes and order. -/
structure ItineraryItem extends Recommendation where
  day : ℕ
  notes : String
  order : ℕ

/-- JavaScript `a || b` on an optional string: `b` when `a` is absent
or empty (falsy). -/
def strOrElse (a : Option String) (b : String) : String :=
  match a with
  | some s => if s = "" then b else s
  | none => b

/-- The descending-popularity comparison passed to
`[...entities].sort((a, b) => b.popularity - a.popularity)`. -/
def byPopularityDesc (a b : Entity) : Prop :=
  b.popularity ≤ a.popularity

instance : DecidableRel byPopularityDesc :=
  fun a b => inferInstanceAs (Decidable (b.popularity ≤ a.popularity))

instance : IsTotal Entity byPopularityDesc :=
  ⟨fun a b => le_total b.popularity a.popularity⟩

instance : IsTrans Entity byPopularityDesc :=
  ⟨fun _ _ _ h h' => le_trans h' h⟩

/-- Translation of `[...entities].sort((a, b) => b.popularity - a.popularity)`:
a stable sort by popularity descending (JavaScript `Array.prototype.sort`
is specified to be stable). -/
def sortEntities (entities : List Entity) : List Entity :=
  List.insertionSort byPopularityDesc entities

/-- The category lookup of the mapper:
`entity.tags?.find(t => t.type.startsWith('urn:tag:category'))?.name || 'Place'`. -/
def categoryOf (tags : List Tag) : String :=
  match tags.find? (fun t => strStartsAux "urn:tag:category".data t.type.data) with
  | some t => if t.name = "" then "Place" else t.name
  | none => "Place"

/-- The fallback image URL used by the mapper. -/
def fallbackImage : String :=
  "https://images.pexels.com/photos/33545/sunrise-phu-quoc-island-ocean.jpg?auto=compress&cs=tinysrgb&w=400"

/-- The fallback insight text used by the mapper. -/
def fallbackInsight : String :=
  "A location tailored to your unique cultural tastes."

/-- The per-entity body of the mapper in
`handleGenerateRecommendations`: classify the segment, compute the
normalized popularity rank from the sorted length `n` and the `index`,
draw the radar coordinates, and normalize the optional fields.  `u`
stands for the `Math.random()` value drawn for this entity. -/
noncomputable def mapEntity (n index : ℕ) (entity : Entity) (u : ℝ) :
    Recommendation :=
  let segment := mapTagsToSegment entity.tags
  let popRank := popularityRank n index
  let xy := getRadarCoordinates segment popRank u
  { id := entity.entity_id
    name := entity.name
    category := categoryOf entity.tags
    image := strOrElse entity.imageUrl fallbackImage
    insight := strOrElse entity.description fallbackInsight
    segment := segment
    website := entity.website
    x := some xy.1
    y := some xy.2
    latitude := entity.lat
    longitude := entity.lon }

/-- The body of `handleGenerateRecommendations` after a successful API
reply: sort the entities by popularity descending and map each one to a
`Recommendation` with segment, rank-based radar coordinates and
normalized optional fields.  `randomDraws index` stands for the
`Math.random()` value drawn for the entity at `index`. -/
noncomputable def mapEntities (entities : List Entity) (randomDraws : ℕ → ℝ) :
    List Recommendation :=
  let sortedEntities := sortEntities entities
  sortedEntities.mapIdx (fun index entity =>
    mapEntity sortedEntities.length index entity (randomDraws index))

/-! ## Itinerary operations -/

/-- Translation of `addToItinerary`: no-op when an item with the same id is already in
the itinerary, else append the recommendation with `day = 1`,
`notes = ""` and `order = itinerary.length`. -/
def addToItinerary (itinerary : List ItineraryItem) (rec : Recommendation) :
    List ItineraryItem :=
  if (itinerary.find? (fun item => item.id == rec.id)).isSome then itinerary
  else
    itinerary ++
      [{ toRecommendation := rec, day := 1, notes := "", order := itinerary.length }]

/-- Translation of `removeFromItinerary`: drop the item with the given id. -/
def removeFromItinerary (itinerary : List ItineraryItem) (id : String) :
    List ItineraryItem :=
  itinerary.filter (fun item => item.id != id)

/-! ## Autoplan response parsing and the bulk-replace flow -/

/-- Skip JSON whitespace. -/
def skipWs : List Char → List Char
  | [] => []
  | c :: rest =>
    if c = ' ' || c = '\n' || c = '\t' || c = '\r' then skipWs rest else c :: rest

/-- Read a JSON string body after the opening quote: the contents up to
the closing quote and the remainder after it.  Escape sequences are not
part of the id alphabet the prompt requests, so a backslash fails the
parse. -/
def parseStringBody : List Char → Option (List Char × List Char)
  | [] => none
  | c :: rest =>
    if c = '"' then some ([], rest)
    else if c = '\\' then none
    else
      match parseStringBody rest with
      | some (s, rem) => some (c :: s, rem)
      | none => none

/-- Read the comma-separated string elements of a JSON array, starting
just after `[` (or after a comma), up to and including the closing `]`.
`fuel` bounds the recursion by the input length. -/
def parseStrings : ℕ → List Char → Option (List String × List Char)
  | 0, _ => none
  | fuel + 1, cs =>
    match skipWs cs with
    | '"' :: rest =>
      match parseStringBody rest with
      | some (s, rem) =>
        match skipWs rem with
        | ',' :: rem2 =>
          match parseStrings fuel rem2 with
          | some (ss, rem3) => some (⟨s⟩ :: ss, rem3)
          | none => none
        | ']' :: rem2 => some ([⟨s⟩], rem2)
        | _ => none
      | none => none
    | _ => none

/-- Model of `JSON.parse(response)` restricted to the reply shape the autoplan
prompt demands — a JSON array of strings such as `["id1", "id2"]`.  Any
other reply is treated as a parse failure; in the source such replies
likewise end in the catch/fallback path rather than in a successful id
list. -/
def tryParseJsonStringArray (response : String) : Option (List String) :=
  match skipWs response.data with
  | '[' :: rest =>
    match skipWs rest with
    | ']' :: rem => if skipWs rem = [] then some [] else none
    | _ =>
      match parseStrings (response.data.length + 1) rest with
      | some (ss, rem) => if skipWs rem = [] then some ss else none
      | none => none
  | _ => none

/-- The regex fallback `response.match(/"([^"]+)"/g)` followed by
stripping the quotes from each match: every maximal run of one or more
non-quote characters enclosed in double quotes, left to right.  `fuel`
bounds the recursion by the input length. -/
def scanQuoted : ℕ → List Char → List String
  | 0, _ => []
  | _ + 1, [] => []
  | fuel + 1, c :: rest =>
    if c = '"' then
      let content := rest.takeWhile (fun d => d ≠ '"')
      let rem := rest.dropWhile (fun d => d ≠ '"')
      match rem with
      | '"' :: rem2 =>
        if content = [] then scanQuoted fuel rest
        else ⟨content⟩ :: scanQuoted fuel rem2
      | _ => []
    else scanQuoted fuel rest

/-- All candidate ids the regex fallback extracts from the reply. -/
def extractQuotedMatches (response : String) : List String :=
  scanQuoted response.data.length response.data

/-- The id-parsing logic of `handleAutoplan`: try a direct JSON parse
first; on failure fall back to the quoted-substring regex, which yields
an id list only when it matches at least once (`response.match` returns
`null` on zero matches). -/
def parseSelectedIds (response : String) : Option (List String) :=
  match tryParseJsonStringArray response with
  | some ids => some ids
  | none =>
    match extractQuotedMatches response with
    | [] => none
    | ms => some ms

/-- The note attached by autoplan to every selected item. -/
def autoplanNote (autoplanDescription : String) : String :=
  "Auto-selected based on: " ++ autoplanDescription

/-- The state-relevant body of `handleAutoplan`, given the model reply:
parse the selected ids, filter the current recommendations by them, and
either surface an error (leaving the itinerary unchanged) or replace
the itinerary wholesale with the selected recommendations, two per day,
`order = index`, each annotated with the user's description.  Returns
the new itinerary and the error message, if any. -/
def handleAutoplan (itinerary : List ItineraryItem)
    (recommendations : List Recommendation) (response : String)
    (autoplanDescription : String) : List ItineraryItem × Option String :=
  match parseSelectedIds response with
  | none => (itinerary, some "Could not parse AI response")
  | some selectedIds =>
    let selectedRecommendations :=
      recommendations.filter (fun rec => selectedIds.contains rec.id)
    if selectedRecommendations.length = 0 then
      (itinerary, some "No matching recommendations found. Try a different description.")
    else
      let newItineraryItems := selectedRecommendations.mapIdx (fun index rec =>
        { toRecommendation := rec
          day := index / 2 + 1
          notes := autoplanNote autoplanDescription
          order := index })
      (newItineraryItems, none)

/-! ## Map Location Projector -/

/-- Whether a map location came from the itinerary or from the
recommendation list. -/
inductive LocationType where
  | itinerary
  | recommendation
deriving DecidableEq, Repr

/-- A map-displayable location; `coordinates` is `[longitude, latitude]`
(Mapbox order). -/
structure Location where
  id : String
  name : String
  category : String
  image : String
  insight : String
  coordinates : ℚ × ℚ
  type : LocationType

/-- JavaScript truthiness of an optional number: absent, `null` and `0`
are falsy. -/
def jsTruthy (v : Option ℚ) : Bool :=
  match v with
  | some q => q != 0
  | none => false

/-- The fixed fallback point (Tokyo), in `[longitude, latitude]` order. -/
def defaultCoordinates : ℚ × ℚ :=
  (139.6917, 35.6895)

/-- Translation of `convertToMapLocation`: build a map location from a stored record,
using the stored coordinates when `item.latitude && item.longitude` is
truthy and the fixed default point otherwise. -/
def convertToMapLocation (item : Recommendation) (ty : LocationType) : Location :=
  let coordinates : ℚ × ℚ :=
    if jsTruthy item.latitude && jsTruthy item.longitude then
      (item.longitude.getD 0, item.latitude.getD 0)
    else defaultCoordinates
  { id := item.id
    name := item.name
    category := item.category
    image := item.image
    insight := item.insight
    coordinates := coordinates
    type := ty }

/-! ## Application state and the preference-change reset effect -/

/-- The preference-relevant slice of the `CulturalCompass` component
state. -/
structure AppState where
  destination : String
  movie : String
  artist : String
  author : String
  isGenerated : Bool
  recommendations : List Recommendation
  itinerary : List ItineraryItem

/-- One of the four preference input fields. -/
inductive PrefField where
  | destination
  | movie
  | artist
  | author
deriving DecidableEq, Repr

/-- Write one preference field. -/
def setPrefField (s : AppState) (f : PrefField) (v : String) : AppState :=
  match f with
  | .destination => { s with destination := v }
  | .movie => { s with movie := v }
  | .artist => { s with artist := v }
  | .author => { s with author := v }

/-- Read one preference field. -/
def getPrefField (s : AppState) : PrefField → String
  | .destination => s.destination
  | .movie => s.movie
  | .artist => s.artist
  | .author => s.author

/-- The reset effect that runs whenever any of the four preference
fields changes: `setIsGenerated(false); setRecommendations([]);
setItinerary([])`. -/
def prefResetEffect (s : AppState) : AppState :=
  { s with isGenerated := false, recommendations := [], itinerary := [] }

/-- A change of one preference field together with the reset effect it
triggers. -/
def changePreference (s : AppState) (f : PrefField) (v : String) : AppState :=
  prefResetEffect (setPrefField s f v)

/-! ## The Local Store

The `kenshoDb` module itself is not among the embedded sources — only
its callers are — so the store is modelled from the specification's
Local Store contract: four record kinds (one preferences record, a
wholesale-replaced recommendation list, itinerary records keyed by id
with idempotent writes, one session flag) plus aggregate stats. -/

/-- The single user-preferences record. -/
structure UserPreferences where
  destination : String
  movie : String
  artist : String
  author : String
deriving DecidableEq, Repr

/-- Modelled from the spec: the Local Store's contents — user
preferences, recommendations, itinerary items and the session flag
(`kenshoDb`'s backing state). -/
structure LocalStore where
  preferences : Option UserPreferences
  recommendations : List Recommendation
  itinerary : List ItineraryItem
  session : Option Bool

/-- The aggregate stats record returned by `kenshoDb.getStorageStats`. -/
structure StorageStats where
  preferencesCount : ℕ
  recommendationsCount : ℕ
  itineraryCount : ℕ
  sessionExists : Bool
deriving DecidableEq, Repr

/-- Modelled from the spec: `kenshoDb.getStorageStats` — per-kind counts
plus whether a session record exists. -/
def getStorageStats (db : LocalStore) : StorageStats :=
  { preferencesCount := if db.preferences.isSome then 1 else 0
    recommendationsCount := db.recommendations.length
    itineraryCount := db.itinerary.length
    sessionExists := db.session.isSome }

/-- Modelled from the spec: `kenshoDb.saveUserPreferences` overwrites
the single preferences record. -/
def saveUserPreferences (db : LocalStore) (p : UserPreferences) : LocalStore :=
  { db with preferences := some p }

/-- Modelled from the spec: `kenshoDb.saveRecommendations` replaces the
stored recommendation list wholesale. -/
def saveRecommendations (db : LocalStore) (recs : List Recommendation) : LocalStore :=
  { db with recommendations := recs }

/-- Modelled from the spec: `kenshoDb.addToItinerary` writes one
itinerary record keyed by id — writes are idempotent, so an existing id
is overwritten rather than duplicated. -/
def dbAddToItinerary (db : LocalStore) (item : ItineraryItem) : LocalStore :=
  if (db.itinerary.find? (fun it => it.id == item.id)).isSome then
    { db with itinerary := db.itinerary.map (fun it => if it.id == item.id then item else it) }
  else { db with itinerary := db.itinerary ++ [item] }

/-- Modelled from the spec: `kenshoDb.saveSession` overwrites the single
session flag. -/
def saveSession (db : LocalStore) (isGenerated : Bool) : LocalStore :=
  { db with session := some isGenerated }

/-- Modelled from the spec: `kenshoDb.clearAllData` empties every record
kind. -/
def dbClearAllData (_db : LocalStore) : LocalStore :=
  { preferences := none, recommendations := [], itinerary := [], session := none }

/-! ## Preference migration -/

/-- A legacy `localStorage` value that should hold JSON: either it
parses or `JSON.parse` throws on it. -/
inductive LegacyJson (α : Type) where
  | parsed (value : α)
  | malformed

/-- The legacy flat-key `localStorage` contents read by
`migrateFromLocalStorage`: the four `kensho-*` preference keys, the two
JSON-encoded lists, and the `kensho-is-generated` flag.  `none` models
an absent key. -/
structure LegacyStore where
  destination : Option String
  movie : Option String
  artist : Option String
  author : Option String
  recommendationsJson : Option (LegacyJson (List Recommendation))
  itineraryJson : Option (LegacyJson (List ItineraryItem))
  isGenerated : Option String

/-- JavaScript truthiness of `localStorage.getItem`'s result: `null`
and the empty string are falsy. -/
def jsTruthyStr (v : Option String) : Bool :=
  match v with
  | some s => s != ""
  | none => false

/-- The preferences step of `migrateFromLocalStorage`: when the store
reports zero preference records and any legacy preference key is
truthy, save the four legacy values (absent ones as `""`). -/
def migratePreferencesStep (hasDbData : StorageStats) (ls : LegacyStore)
    (db : LocalStore) : LocalStore :=
  if hasDbData.preferencesCount = 0 then
    if jsTruthyStr ls.destination || jsTruthyStr ls.movie ||
        jsTruthyStr ls.artist || jsTruthyStr ls.author then
      saveUserPreferences db
        { destination := ls.destination.getD ""
          movie := ls.movie.getD ""
          artist := ls.artist.getD ""
          author := ls.author.getD "" }
    else db
  else db

/-- The recommendations step of `migrateFromLocalStorage`: when the
store reports zero recommendation records and the legacy key is
present, parse it; a malformed value is caught and skipped, a parsed
non-empty list is saved. -/
def migrateRecommendationsStep (hasDbData : StorageStats) (ls : LegacyStore)
    (db : LocalStore) : LocalStore :=
  if hasDbData.recommendationsCount = 0 then
    match ls.recommendationsJson with
    | some (.parsed recs) => if recs.length > 0 then saveRecommendations db recs else db
    | some .malformed => db
    | none => db
  else db

/-- The itinerary step of `migrateFromLocalStorage`: when the store
reports zero itinerary records and the legacy key is present, parse it
and add every item; a malformed value is caught and skipped. -/
def migrateItineraryStep (hasDbData : StorageStats) (ls : LegacyStore)
    (db : LocalStore) : LocalStore :=
  if hasDbData.itineraryCount = 0 then
    match ls.itineraryJson with
    | some (.parsed items) => items.foldl dbAddToItinerary db
    | some .malformed => db
    | none => db
  else db

/-- The session step of `migrateFromLocalStorage`: when no session
record exists and the legacy flag is truthy, save
`isGenerated = (flag == 'true')`. -/
def migrateSessionStep (hasDbData : StorageStats) (ls : LegacyStore)
    (db : LocalStore) : LocalStore :=
  if !hasDbData.sessionExists then
    match ls.isGenerated with
    | some s => if s ≠ "" then saveSession db (s == "true") else db
    | none => db
  else db

/-- Translation of `migrateFromLocalStorage`: one-time import of the legacy flat-key
storage into the Local Store.  The stats are read once up front and all
four per-kind emptiness checks use them. -/
def migrateFromLocalStorage (db : LocalStore) (ls : LegacyStore) : LocalStore :=
  let hasDbData := getStorageStats db
  migrateSessionStep hasDbData ls
    (migrateItineraryStep hasDbData ls
      (migrateRecommendationsStep hasDbData ls
        (migratePreferencesStep hasDbData ls db)))

/-! ## Auto-persist effects and clear-all -/

/-- The auto-persist effect for recommendations: write the in-memory
list to the store only when the store is done loading and the list is
non-empty. -/
def persistRecommendationsEffect (db : LocalStore) (isDbLoading : Bool)
    (recommendations : List Recommendation) : LocalStore :=
  if !isDbLoading && decide (recommendations.length > 0) then
    saveRecommendations db recommendations
  else db

/-- Translation of `clearAllData`: clear every store kind and reset the whole app
state. -/
def clearAllData (db : LocalStore) (s : AppState) : LocalStore × AppState :=
  (dbClearAllData db,
   { s with destination := "", movie := "", artist := "", author := "",
            isGenerated := false, recommendations := [], itinerary := [] })

/-! ## Concrete data for witnesses -/

/-- A minimal recommendation with the given id. -/
def demoRec (id : String) : Recommendation :=
  { id := id, name := "Demo", category := "Place", image := "", insight := "",
    segment := .explore, website := none, x := none, y := none,
    latitude := none, longitude := none }

/-- A minimal itinerary item with the given id. -/
def demoItem (id : String) : ItineraryItem :=
  { toRecommendation := demoRec id, day := 1, notes := "", order := 0 }

/-- A raw entity with the given id and popularity and no optional data. -/
def entityWithPopularity (id : String) (p : ℚ) : Entity :=
  { entity_id := id, name := id, popularity := p, tags := [],
    imageUrl := none, description := none, website := none, lat := none, lon := none }

/-- The three-entity batch with popularity `[90, 50, 10]` from the
end-to-end scenario. -/
def demo3 : List Entity :=
  [entityWithPopularity "e90" 90, entityWithPopularity "e50" 50,
   entityWithPopularity "e10" 10]

/-- A stored record whose latitude is present but zero. -/
def zeroLatItem : Recommendation :=
  { id := "equator-point", name := "Equator", category := "Place", image := "",
    insight := "", segment := .explore, website := none, x := none, y := none,
    latitude := some 0, longitude := some 10 }

/-! # Theorems -/

/-- Any over a lower-cased tag-name map, as an existential over tags. -/
lemma any_map_lower (tags : List Tag) (p : String → Bool) :
    (tags.map (fun t => strToLower t.name)).any p = true ↔
      ∃ t ∈ tags, p (strToLower t.name) := by
  simp [List.any_map, Function.comp, List.any_eq_true]

/-- C2: Segment classification (`mapTagsToSegment`) is a deterministic
function of the tag set, matched in priority order: a dine keyword in
any tag yields `dine`; otherwise a listen keyword yields `listen`;
otherwise a see keyword yields `see`; otherwise `explore`.  In
particular `["restaurant"] ↦ dine`, `["jazz"] ↦ listen`,
`["museum"] ↦ see`, `[] ↦ explore`, and
`["restaurant","museum"] ↦ dine`. -/
theorem segment_classification_priority (tags : List Tag) :
    ((∃ t ∈ tags, hasDineKeyword (strToLower t.name)) →
      mapTagsToSegment tags = .dine) ∧
    ((¬ ∃ t ∈ tags, hasDineKeyword (strToLower t.name)) →
      (∃ t ∈ tags, hasListenKeyword (strToLower t.name)) →
      mapTagsToSegment tags = .listen) ∧
    ((¬ ∃ t ∈ tags, hasDineKeyword (strToLower t.name)) →
      (¬ ∃ t ∈ tags, hasListenKeyword (strToLower t.name)) →
      (∃ t ∈ tags, hasSeeKeyword (strToLower t.name)) →
      mapTagsToSegment tags = .see) ∧
    ((¬ ∃ t ∈ tags, hasDineKeyword (strToLower t.name)) →
      (¬ ∃ t ∈ tags, hasListenKeyword (strToLower t.name)) →
      (¬ ∃ t ∈ tags, hasSeeKeyword (strToLower t.name)) →
      mapTagsToSegment tags = .explore) ∧
    mapTagsToSegment [⟨"restaurant", ""⟩] = .dine ∧
    mapTagsToSegment [⟨"jazz", ""⟩] = .listen ∧
    mapTagsToSegment [⟨"museum", ""⟩] = .see ∧
    mapTagsToSegment [] = .explore ∧
    mapTagsToSegment [⟨"restaurant", ""⟩, ⟨"museum", ""⟩] = .dine := by
  refine ⟨?_, ?_, ?_, ?_, by decide, by decide, by decide, by decide, by decide⟩
  · intro h
    simp only [mapTagsToSegment]
    rw [if_pos ((any_map_lower tags hasDineKeyword).mpr h)]
  · intro hd hl
    simp only [mapTagsToSegment]
    rw [if_neg, if_pos ((any_map_lower tags hasListenKeyword).mpr hl)]
    simpa [any_map_lower] using hd
  · intro hd hl hs
    simp only [mapTagsToSegment]
    rw [if_neg, if_neg, if_pos ((any_map_lower tags hasSeeKeyword).mpr hs)]
    · simpa [any_map_lower] using hl
    · simpa [any_map_lower] using hd
  · intro hd hl hs
    simp only [mapTagsToSegment]
    rw [if_neg, if_neg, if_neg]
    · simpa [any_map_lower] using hs
    · simpa [any_map_lower] using hl
    · simpa [any_map_lower] using hd

/-- Witness for C2: the dine branch applied to the tag set
`["restaurant"]`. -/
theorem segment_classification_priority_witness :
    mapTagsToSegment [⟨"restaurant", ""⟩] = .dine :=
  (segment_classification_priority [⟨"restaurant", ""⟩]).1 (by decide)

/-- C4: `addToItinerary` is a no-op when the recommendation's id is
already present; otherwise it appends the recommendation with
`day = 1`, `notes = ""` and `order` equal to the previous length; hence
it is idempotent in the item id. -/
theorem addToItinerary_idempotent (itinerary : List ItineraryItem)
    (rec : Recommendation) :
    ((∃ item ∈ itinerary, item.id = rec.id) →
      addToItinerary itinerary rec = itinerary) ∧
    ((¬ ∃ item ∈ itinerary, item.id = rec.id) →
      addToItinerary itinerary rec =
        itinerary ++
          [{ toRecommendation := rec, day := 1, notes := "",
             order := itinerary.length }]) ∧
    addToItinerary (addToItinerary itinerary rec) rec =
      addToItinerary itinerary rec := by
  have hfind : ∀ l : List ItineraryItem,
      (l.find? (fun item => item.id == rec.id)).isSome = true ↔
        ∃ item ∈ l, item.id = rec.id := by
    intro l
    simp [List.find?_isSome]
  have step_pos : ∀ l, (∃ item ∈ l, item.id = rec.id) →
      addToItinerary l rec = l := by
    intro l hl
    simp only [addToItinerary]
    rw [if_pos ((hfind l).mpr hl)]
  have step_neg : ∀ l, (¬ ∃ item ∈ l, item.id = rec.id) →
      addToItinerary l rec =
        l ++ [{ toRecommendation := rec, day := 1, notes := "",
                order := l.length }] := by
    intro l hl
    simp only [addToItinerary]
    rw [if_neg]
    intro hc
    exact hl ((hfind l).mp hc)
  by_cases h : ∃ item ∈ itinerary, item.id = rec.id
  · have hadd := step_pos itinerary h
    refine ⟨fun _ => hadd, fun hc => absurd h hc, ?_⟩
    rw [hadd]
    exact hadd
  · have hadd := step_neg itinerary h
    refine ⟨fun hc => absurd hc h, fun _ => hadd, ?_⟩
    refine step_pos _
      ⟨{ toRecommendation := rec, day := 1, notes := "",
         order := itinerary.length }, ?_, rfl⟩
    rw [hadd]
    exact List.mem_append_right _ (List.mem_singleton_self _)

/-- Witness for C4: adding an already-present id is a no-op, and adding
to an empty itinerary appends with day 1, empty notes, order 0. -/
theorem addToItinerary_idempotent_witness :
    addToItinerary [demoItem "a"] (demoRec "a") = [demoItem "a"] ∧
    addToItinerary [] (demoRec "a") =
      [{ toRecommendation := demoRec "a", day := 1, notes := "", order := 0 }] :=
  ⟨(addToItinerary_idempotent [demoItem "a"] (demoRec "a")).1
      ⟨demoItem "a", List.mem_singleton_self _, rfl⟩,
    by
      have h := (addToItinerary_idempotent [] (demoRec "a")).2.1 (by simp)
      simpa using h⟩

/-- C7: changing any one of the four preference fields resets
`isGenerated` to `false` and empties both the recommendations list and
the itinerary list (and does set the field). -/
theorem preference_change_resets (s : AppState) (f : PrefField) (v : String) :
    (changePreference s f v).isGenerated = false ∧
    (changePreference s f v).recommendations = [] ∧
    (changePreference s f v).itinerary = [] ∧
    getPrefField (changePreference s f v) f = v := by
  cases f <;>
    simp [changePreference, setPrefField, prefResetEffect, getPrefField]

/-- C9 counterexample: a record whose latitude and longitude are both
present, with latitude `0`, is sent to the fallback point, not to its
stored coordinates — presence alone does not select the stored
coordinates. -/
theorem convertToMapLocation_present_not_sufficient :
    zeroLatItem.latitude.isSome = true ∧ zeroLatItem.longitude.isSome = true ∧
    (convertToMapLocation zeroLatItem .recommendation).coordinates ≠ (10, 0) ∧
    (convertToMapLocation zeroLatItem .recommendation).coordinates =
      defaultCoordinates := by
  refine ⟨rfl, rfl, ?_, rfl⟩
  intro h
  have : (139.6917 : ℚ) = 10 := congrArg Prod.fst h
  norm_num at this

/-- C9 (amended): `convertToMapLocation` resolves coordinates as
`[longitude, latitude]` whenever both fields are present *and truthy
(nonzero)*, and falls back to the fixed default point
`[139.6917, 35.6895]` otherwise; the remaining fields are copied. -/
theorem convertToMapLocation_truthy_resolution (item : Recommendation)
    (ty : LocationType) :
    ((∃ lat, item.latitude = some lat ∧ lat ≠ 0) →
      (∃ lon, item.longitude = some lon ∧ lon ≠ 0) →
      (convertToMapLocation item ty).coordinates =
        (item.longitude.getD 0, item.latitude.getD 0)) ∧
    ((¬ (∃ lat, item.latitude = some lat ∧ lat ≠ 0)) ∨
        (¬ (∃ lon, item.longitude = some lon ∧ lon ≠ 0)) →
      (convertToMapLocation item ty).coordinates = defaultCoordinates) ∧
    (convertToMapLocation item ty).id = item.id ∧
    (convertToMapLocation item ty).type = ty := by
  have htr : ∀ v : Option ℚ, jsTruthy v = true ↔ ∃ q, v = some q ∧ q ≠ 0 := by
    intro v
    cases v <;> simp [jsTruthy]
  refine ⟨?_, ?_, rfl, rfl⟩
  · intro hlat hlon
    simp only [convertToMapLocation]
    rw [if_pos]
    rw [(htr _).mpr hlat, (htr _).mpr hlon]
    rfl
  · intro h
    simp only [convertToMapLocation]
    rw [if_neg]
    intro hc
    rw [Bool.and_eq_true, htr, htr] at hc
    rcases h with h | h
    · exact h hc.1
    · exact h hc.2

/-- Witness for C9's amended theorem: truthy stored coordinates are
used, in `[longitude, latitude]` order. -/
theorem convertToMapLocation_truthy_resolution_witness :
    (convertToMapLocation
        { demoRec "p" with latitude := some 1, longitude := some 2 }
        .itinerary).coordinates = (2, 1) :=
  (convertToMapLocation_truthy_resolution
      { demoRec "p" with latitude := some 1, longitude := some 2 } .itinerary).1
    ⟨1, rfl, by norm_num⟩ ⟨2, rfl, by norm_num⟩

/-- C10: the auto-persist effect writes the recommendations list to the
Local Store only when it is non-empty, so the in-memory clear on a
preference change leaves the persisted recommendations untouched; a
later non-empty save overwrites them and `clearAllData` removes them. -/
theorem persist_skips_empty_recommendations (db : LocalStore) (loading : Bool)
    (s : AppState) (f : PrefField) (v : String) (recs : List Recommendation) :
    persistRecommendationsEffect db loading
      (changePreference s f v).recommendations = db ∧
    persistRecommendationsEffect db loading [] = db ∧
    (recs ≠ [] →
      (persistRecommendationsEffect db false recs).recommendations = recs) ∧
    (dbClearAllData db).recommendations = [] := by
  refine ⟨?_, ?_, ?_, rfl⟩
  · have h : (changePreference s f v).recommendations = [] := by
      cases f <;> simp [changePreference, setPrefField, prefResetEffect]
    rw [h]
    simp [persistRecommendationsEffect]
  · simp [persistRecommendationsEffect]
  · intro hne
    simp [persistRecommendationsEffect, List.length_pos.mpr hne,
      saveRecommendations]

/-- The preferences step never touches the other record kinds. -/
lemma migratePreferencesStep_frame (st : StorageStats) (ls : LegacyStore)
    (db : LocalStore) :
    (migratePreferencesStep st ls db).recommendations = db.recommendations ∧
    (migratePreferencesStep st ls db).itinerary = db.itinerary ∧
    (migratePreferencesStep st ls db).session = db.session := by
  unfold migratePreferencesStep
  split_ifs <;> exact ⟨rfl, rfl, rfl⟩

/-- The recommendations step never touches the other record kinds. -/
lemma migrateRecommendationsStep_frame (st : StorageStats) (ls : LegacyStore)
    (db : LocalStore) :
    (migrateRecommendationsStep st ls db).preferences = db.preferences ∧
    (migrateRecommendationsStep st ls db).itinerary = db.itinerary ∧
    (migrateRecommendationsStep st ls db).session = db.session := by
  unfold migrateRecommendationsStep
  split
  · split
    · split_ifs <;> exact ⟨rfl, rfl, rfl⟩
    · exact ⟨rfl, rfl, rfl⟩
    · exact ⟨rfl, rfl, rfl⟩
  · exact ⟨rfl, rfl, rfl⟩

/-- A keyed itinerary write never touches the other record kinds. -/
lemma dbAddToItinerary_frame (db : LocalStore) (item : ItineraryItem) :
    (dbAddToItinerary db item).preferences = db.preferences ∧
    (dbAddToItinerary db item).recommendations = db.recommendations ∧
    (dbAddToItinerary db item).session = db.session := by
  unfold dbAddToItinerary
  split_ifs <;> exact ⟨rfl, rfl, rfl⟩

/-- Folding keyed itinerary writes never touches the other record
kinds. -/
lemma foldl_dbAddToItinerary_frame (items : List ItineraryItem)
    (db : LocalStore) :
    (items.foldl dbAddToItinerary db).preferences = db.preferences ∧
    (items.foldl dbAddToItinerary db).recommendations = db.recommendations ∧
    (items.foldl dbAddToItinerary db).session = db.session := by
  induction items generalizing db with
  | nil => exact ⟨rfl, rfl, rfl⟩
  | cons it rest ih =>
    rw [List.foldl_cons]
    obtain ⟨h1, h2, h3⟩ := ih (dbAddToItinerary db it)
    obtain ⟨g1, g2, g3⟩ := dbAddToItinerary_frame db it
    exact ⟨h1.trans g1, h2.trans g2, h3.trans g3⟩

/-- The itinerary step never touches the other record kinds. -/
lemma migrateItineraryStep_frame (st : StorageStats) (ls : LegacyStore)
    (db : LocalStore) :
    (migrateItineraryStep st ls db).preferences = db.preferences ∧
    (migrateItineraryStep st ls db).recommendations = db.recommendations ∧
    (migrateItineraryStep st ls db).session = db.session := by
  unfold migrateItineraryStep
  split
  · split
    · exact ⟨(foldl_dbAddToItinerary_frame _ _).1,
        (foldl_dbAddToItinerary_frame _ _).2.1,
        (foldl_dbAddToItinerary_frame _ _).2.2⟩
    · exact ⟨rfl, rfl, rfl⟩
    · exact ⟨rfl, rfl, rfl⟩
  · exact ⟨rfl, rfl, rfl⟩

/-- The session step never touches the other record kinds. -/
lemma migrateSessionStep_frame (st : StorageStats) (ls : LegacyStore)
    (db : LocalStore) :
    (migrateSessionStep st ls db).preferences = db.preferences ∧
    (migrateSessionStep st ls db).recommendations = db.recommendations ∧
    (migrateSessionStep st ls db).itinerary = db.itinerary := by
  unfold migrateSessionStep
  split
  · split
    · split_ifs <;> exact ⟨rfl, rfl, rfl⟩
    · exact ⟨rfl, rfl, rfl⟩
  · exact ⟨rfl, rfl, rfl⟩

/-- With a populated kind, the corresponding step is the identity. -/
lemma migratePreferencesStep_skip (st : StorageStats) (ls : LegacyStore)
    (db : LocalStore) (h : st.preferencesCount ≠ 0) :
    migratePreferencesStep st ls db = db := by
  unfold migratePreferencesStep
  rw [if_neg h]

/-- With a populated kind, the corresponding step is the identity. -/
lemma migrateRecommendationsStep_skip (st : StorageStats) (ls : LegacyStore)
    (db : LocalStore) (h : st.recommendationsCount ≠ 0) :
    migrateRecommendationsStep st ls db = db := by
  unfold migrateRecommendationsStep
  rw [if_neg h]

/-- With a populated kind, the corresponding step is the identity. -/
lemma migrateItineraryStep_skip (st : StorageStats) (ls : LegacyStore)
    (db : LocalStore) (h : st.itineraryCount ≠ 0) :
    migrateItineraryStep st ls db = db := by
  unfold migrateItineraryStep
  rw [if_neg h]

/-- With an existing session, the session step is the identity. -/
lemma migrateSessionStep_skip (st : StorageStats) (ls : LegacyStore)
    (db : LocalStore) (h : st.sessionExists = true) :
    migrateSessionStep st ls db = db := by
  unfold migrateSessionStep
  rw [h]
  rfl

/-- A malformed legacy recommendations value is caught and skipped. -/
lemma migrateRecommendationsStep_malformed (st : StorageStats)
    (ls : LegacyStore) (db : LocalStore) :
    migrateRecommendationsStep st
      { ls with recommendationsJson := some .malformed } db = db := by
  unfold migrateRecommendationsStep
  split <;> rfl

/-- An absent legacy recommendations key is skipped. -/
lemma migrateRecommendationsStep_absent (st : StorageStats)
    (ls : LegacyStore) (db : LocalStore) :
    migrateRecommendationsStep st
      { ls with recommendationsJson := none } db = db := by
  unfold migrateRecommendationsStep
  split <;> rfl

/-- A malformed legacy itinerary value is caught and skipped. -/
lemma migrateItineraryStep_malformed (st : StorageStats)
    (ls : LegacyStore) (db : LocalStore) :
    migrateItineraryStep st { ls with itineraryJson := some .malformed } db =
      db := by
  unfold migrateItineraryStep
  split <;> rfl

/-- An absent legacy itinerary key is skipped. -/
lemma migrateItineraryStep_absent (st : StorageStats)
    (ls : LegacyStore) (db : LocalStore) :
    migrateItineraryStep st { ls with itineraryJson := none } db = db := by
  unfold migrateItineraryStep
  split <;> rfl

/-- C8: migration is strictly fill-empty per record kind — a kind the
Local Store already has data for is left exactly as it was — and a
malformed legacy JSON value for the recommendations or itinerary kind
is caught and skipped, leaving migration of the other kinds exactly as
if that key were absent. -/
theorem migration_fill_empty (db : LocalStore) (ls : LegacyStore) :
    (db.preferences.isSome = true →
      (migrateFromLocalStorage db ls).preferences = db.preferences) ∧
    (db.recommendations ≠ [] →
      (migrateFromLocalStorage db ls).recommendations = db.recommendations) ∧
    (db.itinerary ≠ [] →
      (migrateFromLocalStorage db ls).itinerary = db.itinerary) ∧
    (db.session.isSome = true →
      (migrateFromLocalStorage db ls).session = db.session) ∧
    migrateFromLocalStorage db { ls with recommendationsJson := some .malformed } =
      migrateFromLocalStorage db { ls with recommendationsJson := none } ∧
    migrateFromLocalStorage db { ls with itineraryJson := some .malformed } =
      migrateFromLocalStorage db { ls with itineraryJson := none } := by
  refine ⟨?_, ?_, ?_, ?_, ?_, ?_⟩
  · intro h
    have hskip : migratePreferencesStep (getStorageStats db) ls db = db := by
      refine migratePreferencesStep_skip _ _ _ ?_
      simp [getStorageStats, h]
    simp only [migrateFromLocalStorage, hskip]
    rw [(migrateSessionStep_frame _ _ _).1, (migrateItineraryStep_frame _ _ _).1,
      (migrateRecommendationsStep_frame _ _ _).1]
  · intro h
    have hskip : migrateRecommendationsStep (getStorageStats db) ls
        (migratePreferencesStep (getStorageStats db) ls db) =
        migratePreferencesStep (getStorageStats db) ls db := by
      refine migrateRecommendationsStep_skip _ _ _ ?_
      simp [getStorageStats]
      exact h
    simp only [migrateFromLocalStorage, hskip]
    rw [(migrateSessionStep_frame _ _ _).2.1, (migrateItineraryStep_frame _ _ _).2.1,
      (migratePreferencesStep_frame _ _ _).1]
  · intro h
    have hskip : ∀ d, migrateItineraryStep (getStorageStats db) ls d = d := by
      intro d
      refine migrateItineraryStep_skip _ _ _ ?_
      simp [getStorageStats]
      exact h
    simp only [migrateFromLocalStorage, hskip]
    rw [(migrateSessionStep_frame _ _ _).2.2, (migrateRecommendationsStep_frame _ _ _).2.1,
      (migratePreferencesStep_frame _ _ _).2.1]
  · intro h
    have hskip : ∀ d, migrateSessionStep (getStorageStats db) ls d = d := by
      intro d
      refine migrateSessionStep_skip _ _ _ ?_
      simp [getStorageStats, Option.isSome_iff_exists] at h ⊢
      exact h
    simp only [migrateFromLocalStorage, hskip]
    rw [(migrateItineraryStep_frame _ _ _).2.2, (migrateRecommendationsStep_frame _ _ _).2.2,
      (migratePreferencesStep_frame _ _ _).2.2]
  · simp only [migrateFromLocalStorage, migrateRecommendationsStep_malformed,
      migrateRecommendationsStep_absent]
    rfl
  · simp only [migrateFromLocalStorage, migrateItineraryStep_malformed,
      migrateItineraryStep_absent]
    rfl

/-- A fully populated Local Store instance. -/
def populatedDb : LocalStore :=
  { preferences := some ⟨"Tokyo", "Lost in Translation", "", ""⟩
    recommendations := [demoRec "r"]
    itinerary := [demoItem "i"]
    session := some true }

/-- A fully populated legacy flat-key store. -/
def populatedLegacy : LegacyStore :=
  { destination := some "Paris"
    movie := some "Amelie"
    artist := none
    author := none
    recommendationsJson := some (.parsed [demoRec "x"])
    itineraryJson := some (.parsed [demoItem "y"])
    isGenerated := some "true" }

/-- Witness for C8: against a fully populated Local Store, migration
from a fully populated legacy store changes no kind at all. -/
theorem migration_fill_empty_witness :
    populatedDb.preferences.isSome = true ∧
    populatedDb.recommendations ≠ [] ∧
    populatedDb.itinerary ≠ [] ∧
    populatedDb.session.isSome = true ∧
    (migrateFromLocalStorage populatedDb populatedLegacy).preferences =
      populatedDb.preferences ∧
    (migrateFromLocalStorage populatedDb populatedLegacy).recommendations =
      populatedDb.recommendations ∧
    (migrateFromLocalStorage populatedDb populatedLegacy).itinerary =
      populatedDb.itinerary ∧
    (migrateFromLocalStorage populatedDb populatedLegacy).session =
      populatedDb.session :=
  have h := migration_fill_empty populatedDb populatedLegacy
  have hr : populatedDb.recommendations ≠ [] := by simp [populatedDb]
  have hi : populatedDb.itinerary ≠ [] := by simp [populatedDb]
  ⟨rfl, hr, hi, rfl, h.1 rfl, h.2.1 hr, h.2.2.1 hi, h.2.2.2.1 rfl⟩

/-- Witness for C10: a non-empty save overwrites the stored
recommendations. -/
theorem persist_skips_empty_recommendations_witness :
    (persistRecommendationsEffect
        ⟨none, [], [], none⟩ false [demoRec "r"]).recommendations =
      [demoRec "r"] :=
  (persist_skips_empty_recommendations ⟨none, [], [], none⟩ false
      ⟨"", "", "", "", false, [], []⟩ .destination "" [demoRec "r"]).2.2.1
    (by simp)

/-- A point at angle `θ` and radius `r` from `(100,100)` is at distance
exactly `r` from the center. -/
lemma dist_cos_sin (θ r : ℝ) (hr : 0 ≤ r) :
    distToCenter (100 + Real.cos θ * r) (100 + Real.sin θ * r) = r := by
  unfold distToCenter
  have h : (100 + Real.cos θ * r - 100) ^ 2 + (100 + Real.sin θ * r - 100) ^ 2 =
      r ^ 2 := by
    linear_combination r ^ 2 * Real.sin_sq_add_cos_sq θ
  rw [h, Real.sqrt_sq hr]

/-- The radar radius lies in `[25, 95]` for any rank in `[0, 1]`. -/
lemma radarRadius_bounds (rank : ℚ) (h0 : 0 ≤ rank) (h1 : rank ≤ 1) :
    25 ≤ radarRadius rank ∧ radarRadius rank ≤ 95 := by
  unfold radarRadius
  constructor <;> nlinarith

/-- The popularity rank lies in `[0, 1]` for any index below the batch
size. -/
lemma popularityRank_bounds (n i : ℕ) (hi : i < n) :
    0 ≤ popularityRank n i ∧ popularityRank n i ≤ 1 := by
  unfold popularityRank
  split_ifs with h
  · have hn1 : (1 : ℚ) ≤ (n : ℚ) - 1 := by
      have h2 : (2 : ℚ) ≤ (n : ℚ) := by exact_mod_cast h
      linarith
    constructor
    · apply div_nonneg (by positivity)
      linarith
    · rw [div_le_one (by linarith)]
      have hin : (i : ℚ) + 1 ≤ (n : ℚ) := by exact_mod_cast hi
      linarith
  · simp

/-- The display point of `getRadarCoordinates` is at distance exactly
`radarRadius rank` from the center, for any jitter draw. -/
lemma getRadarCoordinates_dist (seg : Segment) (rank : ℚ) (u : ℝ)
    (h0 : 0 ≤ rank) (h1 : rank ≤ 1) :
    distToCenter (getRadarCoordinates seg rank u).1
      (getRadarCoordinates seg rank u).2 = ((radarRadius rank : ℚ) : ℝ) := by
  have hb := radarRadius_bounds rank h0 h1
  have hr0 : (0 : ℝ) ≤ ((radarRadius rank : ℚ) : ℝ) := by
    have h25 : (0 : ℚ) ≤ radarRadius rank := le_trans (by norm_num) hb.1
    exact_mod_cast h25
  exact dist_cos_sin _ _ hr0

/-- The mapped record of one entity has display coordinates, at
distance `radarRadius (popularityRank n index)` from the center, within
`[25, 95]`. -/
lemma mapEntity_dist (n index : ℕ) (e : Entity) (u : ℝ) (hi : index < n) :
    ∃ x y, (mapEntity n index e u).x = some x ∧
      (mapEntity n index e u).y = some y ∧
      distToCenter x y = ((radarRadius (popularityRank n index) : ℚ) : ℝ) ∧
      25 ≤ distToCenter x y ∧ distToCenter x y ≤ 95 := by
  obtain ⟨h0, h1⟩ := popularityRank_bounds n index hi
  have hd := getRadarCoordinates_dist (mapTagsToSegment e.tags)
    (popularityRank n index) u h0 h1
  have hb := radarRadius_bounds (popularityRank n index) h0 h1
  refine ⟨_, _, rfl, rfl, hd, ?_, ?_⟩
  · rw [hd]
    exact_mod_cast hb.1
  · rw [hd]
    exact_mod_cast hb.2

/-- The mapper output at index `i` is the mapped record of the `i`-th
sorted entity. -/
lemma mapEntities_getElem? (entities : List Entity) (randomDraws : ℕ → ℝ)
    (i : ℕ) (hi : i < (sortEntities entities).length) :
    (mapEntities entities randomDraws)[i]? =
      some (mapEntity (sortEntities entities).length i
        ((sortEntities entities).get ⟨i, hi⟩) (randomDraws i)) := by
  simp only [mapEntities]
  rw [List.getElem?_mapIdx, List.getElem?_eq_getElem hi]
  rfl

/-- C1: for every raw entity list of size `N` and any values of the
random angle jitter, the mapper output has length `N`, the sorted
entity list it is built from is in descending popularity order (a
permutation of the input, index 0 most popular), and every output
display coordinate lies within radius `[25, 95]` of the center
`(100, 100)`. -/
theorem rec_mapper_length_sorted_inbounds (entities : List Entity)
    (randomDraws : ℕ → ℝ) :
    (mapEntities entities randomDraws).length = entities.length ∧
    List.Sorted byPopularityDesc (sortEntities entities) ∧
    (sortEntities entities).Perm entities ∧
    ∀ i, i < entities.length →
      ∃ r, (mapEntities entities randomDraws)[i]? = some r ∧
        ∃ x y, r.x = some x ∧ r.y = some y ∧
          25 ≤ distToCenter x y ∧ distToCenter x y ≤ 95 := by
  have hsortlen : (sortEntities entities).length = entities.length :=
    (List.perm_insertionSort byPopularityDesc entities).length_eq
  have hlen : (mapEntities entities randomDraws).length = entities.length := by
    simp only [mapEntities]
    rw [List.length_mapIdx, hsortlen]
  refine ⟨hlen, List.sorted_insertionSort byPopularityDesc entities,
    List.perm_insertionSort byPopularityDesc entities, ?_⟩
  intro i hi
  have hi' : i < (sortEntities entities).length := by
    rw [hsortlen]
    exact hi
  obtain ⟨x, y, hx, hy, _, hlo, hhi⟩ := mapEntity_dist
    (sortEntities entities).length i ((sortEntities entities).get ⟨i, hi'⟩)
    (randomDraws i) hi'
  exact ⟨_, mapEntities_getElem? entities randomDraws i hi',
    x, y, hx, hy, hlo, hhi⟩

/-- A constant jitter draw for the witness. -/
noncomputable def demoDraws : ℕ → ℝ := fun _ => 0

/-- Witness for C1: a one-entity batch, at index 0. -/
theorem rec_mapper_length_sorted_inbounds_witness :
    0 < ([entityWithPopularity "demo" (9 / 10)] : List Entity).length ∧
    ∃ r, (mapEntities [entityWithPopularity "demo" (9 / 10)] demoDraws)[0]? =
        some r ∧
      ∃ x y, r.x = some x ∧ r.y = some y ∧
        25 ≤ distToCenter x y ∧ distToCenter x y ≤ 95 :=
  ⟨by decide,
   (rec_mapper_length_sorted_inbounds [entityWithPopularity "demo" (9 / 10)]
      demoDraws).2.2.2 0 (by decide)⟩

/-- C3: the popularity rank at index `i` is `i / (N − 1)` for `N > 1`
and `0` for `N = 1`; the jitter-free display radius is
`25 + (1 − rank) × 70`; and for the three-entity batch with popularity
`[90, 50, 10]` the ranks are `[0, 1/2, 1]`, the radii `[95, 60, 25]`,
and every display point of the mapped batch sits at exactly the
jitter-free radius of its rank, for any jitter draw. -/
theorem popularity_rank_radius_values (n i : ℕ) (hn : 1 < n) (hi : i < n) :
    popularityRank n i = (i : ℚ) / ((n : ℚ) - 1) ∧
    (∀ j : ℕ, popularityRank 1 j = 0) ∧
    (∀ rank : ℚ, radarRadius rank = 25 + (1 - rank) * 70) ∧
    sortEntities demo3 = demo3 ∧
    (popularityRank 3 0 = 0 ∧ popularityRank 3 1 = 1 / 2 ∧
      popularityRank 3 2 = 1) ∧
    (radarRadius (popularityRank 3 0) = 95 ∧
      radarRadius (popularityRank 3 1) = 60 ∧
      radarRadius (popularityRank 3 2) = 25) ∧
    ∀ u : ℕ → ℝ, ∀ k, k < 3 →
      ∃ r, (mapEntities demo3 u)[k]? = some r ∧
        ∃ x y, r.x = some x ∧ r.y = some y ∧
          distToCenter x y = ((radarRadius (popularityRank 3 k) : ℚ) : ℝ) := by
  have hs : sortEntities demo3 = demo3 := by decide
  have hlen3 : (sortEntities demo3).length = 3 := by
    rw [hs]
    rfl
  refine ⟨?_, ?_, fun _ => rfl, hs, ⟨?_, ?_, ?_⟩, ⟨?_, ?_, ?_⟩, ?_⟩
  · unfold popularityRank
    rw [if_pos hn]
  · intro j
    unfold popularityRank
    simp
  · norm_num [popularityRank]
  · norm_num [popularityRank]
  · norm_num [popularityRank]
  · norm_num [radarRadius, popularityRank]
  · norm_num [radarRadius, popularityRank]
  · norm_num [radarRadius, popularityRank]
  · intro u k hk
    have hk' : k < (sortEntities demo3).length := by
      rw [hlen3]
      exact hk
    obtain ⟨x, y, hx, hy, hd, _, _⟩ := mapEntity_dist
      (sortEntities demo3).length k ((sortEntities demo3).get ⟨k, hk'⟩)
      (u k) hk'
    refine ⟨_, mapEntities_getElem? demo3 u k hk', x, y, hx, hy, ?_⟩
    rw [hd, hlen3]

/-- Witness for C3: the middle entity of the three-entity batch has
rank `1/2` and radius `60`. -/
theorem popularity_rank_radius_values_witness :
    popularityRank 3 1 = (1 : ℚ) / ((3 : ℚ) - 1) ∧
    radarRadius (popularityRank 3 1) = 60 :=
  ⟨(popularity_rank_radius_values 3 1 (by decide) (by decide)).1,
   (popularity_rank_radius_values 3 1 (by decide) (by decide)).2.2.2.2.2.1.2.1⟩

/-- Mapping the autoplan itinerary items back to their recommendations
recovers the selected list. -/
lemma autoplanItems_map_toRec (desc : String) (l : List Recommendation) :
    (l.mapIdx (fun index rec =>
      ({ toRecommendation := rec, day := index / 2 + 1,
         notes := autoplanNote desc, order := index } : ItineraryItem))).map
      (fun it => it.toRecommendation) = l := by
  apply List.ext_getElem?
  intro i
  rw [List.getElem?_map, List.getElem?_mapIdx]
  cases h : l[i]? <;> simp

/-- C5: after a successful autoplan from any non-empty itinerary, the
resulting itinerary is exactly the selected recommendations — the item
at position `i` carries `day = ⌊i/2⌋ + 1`, `order = i` and a note
referencing the user's description — and contains no previous entry
whose id was not selected. -/
theorem autoplan_bulk_replace (prev : List ItineraryItem)
    (recs : List Recommendation) (response autoplanDescription : String)
    (result : List ItineraryItem) (hprev : prev ≠ [])
    (hok : handleAutoplan prev recs response autoplanDescription =
      (result, none)) :
    ∃ selectedIds, parseSelectedIds response = some selectedIds ∧
      result.map (fun it => it.toRecommendation) =
        recs.filter (fun rec => selectedIds.contains rec.id) ∧
      (∀ i it, result[i]? = some it →
        it.day = i / 2 + 1 ∧ it.order = i ∧
        it.notes = autoplanNote autoplanDescription) ∧
      ∀ p ∈ prev,
        (∀ rec ∈ recs.filter (fun rec => selectedIds.contains rec.id),
          rec.id ≠ p.id) →
        ∀ it ∈ result, it.id ≠ p.id := by
  cases hpar : parseSelectedIds response with
  | none =>
    simp only [handleAutoplan, hpar] at hok
    exact absurd (congrArg Prod.snd hok) (by simp)
  | some selectedIds =>
    simp only [handleAutoplan, hpar] at hok
    by_cases hz :
        (recs.filter (fun rec => selectedIds.contains rec.id)).length = 0
    · rw [if_pos hz] at hok
      exact absurd (congrArg Prod.snd hok) (by simp)
    · rw [if_neg hz] at hok
      have hres := congrArg Prod.fst hok
      simp only at hres
      refine ⟨selectedIds, rfl, ?_, ?_, ?_⟩
      · rw [← hres]
        exact autoplanItems_map_toRec autoplanDescription _
      · intro i it hit
        rw [← hres, List.getElem?_mapIdx] at hit
        cases hsel : (recs.filter (fun rec => selectedIds.contains rec.id))[i]? with
        | none =>
          rw [hsel] at hit
          exact absurd hit (by simp)
        | some rec =>
          rw [hsel] at hit
          cases Option.some_inj.mp hit
          exact ⟨rfl, rfl, rfl⟩
      · intro p hp hnot it hit
        rw [← hres] at hit
        obtain ⟨j, hj, hfj⟩ := List.exists_of_mem_mapIdx hit
        rw [← hfj]
        exact hnot _ (List.getElem_mem hj)

/-- The itinerary produced by the witness autoplan run. -/
def autoplanResult : List ItineraryItem :=
  [{ toRecommendation := demoRec "a", day := 1,
     notes := autoplanNote "jazz night", order := 0 }]

/-- Witness for C5: one selected recommendation replaces a one-item
itinerary. -/
theorem autoplan_bulk_replace_witness :
    ∃ selectedIds, parseSelectedIds "[\"a\"]" = some selectedIds ∧
      autoplanResult.map (fun it => it.toRecommendation) =
        ([demoRec "a"] : List Recommendation).filter
          (fun rec => selectedIds.contains rec.id) ∧
      (∀ i it, autoplanResult[i]? = some it →
        it.day = i / 2 + 1 ∧ it.order = i ∧
        it.notes = autoplanNote "jazz night") ∧
      ∀ p ∈ ([demoItem "p"] : List ItineraryItem),
        (∀ rec ∈ ([demoRec "a"] : List Recommendation).filter
            (fun rec => selectedIds.contains rec.id), rec.id ≠ p.id) →
        ∀ it ∈ autoplanResult, it.id ≠ p.id :=
  autoplan_bulk_replace [demoItem "p"] [demoRec "a"] "[\"a\"]" "jazz night"
    autoplanResult (by simp) rfl

/-- C6: autoplan response parsing tries a direct JSON parse first, falls
back to regex-extracting quoted substrings on failure, and whenever the
parse fails outright or zero current recommendations match the returned
ids, an error is surfaced and the itinerary is returned unchanged —
never silently replaced by an empty itinerary. -/
theorem autoplan_parse_fallback_no_match (response : String)
    (ids : List String) (prev : List ItineraryItem)
    (recs : List Recommendation) (desc : String)
    (selectedIds : List String) :
    (tryParseJsonStringArray response = some ids →
      parseSelectedIds response = some ids) ∧
    (tryParseJsonStringArray response = none →
      parseSelectedIds response =
        match extractQuotedMatches response with
        | [] => none
        | ms => some ms) ∧
    (parseSelectedIds response = none →
      handleAutoplan prev recs response desc =
        (prev, some "Could not parse AI response")) ∧
    (parseSelectedIds response = some selectedIds →
      (recs.filter (fun rec => selectedIds.contains rec.id)).length = 0 →
      handleAutoplan prev recs response desc =
        (prev,
         some "No matching recommendations found. Try a different description.")) := by
  refine ⟨?_, ?_, ?_, ?_⟩
  · intro h
    simp only [parseSelectedIds, h]
  · intro h
    simp only [parseSelectedIds, h]
  · intro h
    simp only [handleAutoplan, h]
  · intro h hz
    simp only [handleAutoplan, h]
    rw [if_pos hz]

/-- Witness for C6: a well-formed reply parses directly, and with no
matching recommendation the itinerary is returned unchanged together
with the no-matches error. -/
theorem autoplan_parse_fallback_no_match_witness :
    parseSelectedIds "[\"a\"]" = some ["a"] ∧
    handleAutoplan [demoItem "p"] [] "[\"a\"]" "" =
      ([demoItem "p"],
       some "No matching recommendations found. Try a different description.") :=
  ⟨(autoplan_parse_fallback_no_match "[\"a\"]" ["a"] [demoItem "p"] [] ""
      ["a"]).1 (by decide),
   (autoplan_parse_fallback_no_match "[\"a\"]" ["a"] [demoItem "p"] [] ""
      ["a"]).2.2.2 (by decide) rfl⟩

end Kensho
